import Mathlib

/-!
Verification of the provider-availability slot engine.

This file is a shallow embedding of the slot-generation, conflict-detection,
validation and availability-service code of the repository
(`src/backend/src/provider-availability/utils/slot-generator.util.ts`, the
companion `timezone.util.ts`, and the `AvailabilityService` class), together
with theorems settling the specification claims about them.

Conventions of the embedding:
* A civil time-of-day is a `String`; the luxon parse `DateTime.fromFormat s "HH:mm"`
  succeeds exactly on strings of shape `\d\d:\d\d` whose hour is at most 23 and
  whose minute is at most 59, and is embedded as `parseTime` returning the
  minutes-of-day as a `Nat`.
* JS `Date` instants are minutes since the epoch (`Int`); calendar dates are
  epoch-day numbers (`Int`).  The runtime's local zone is assumed to be a fixed
  offset (no DST transition on the request date), under which luxon's
  `plus {minutes}` / `plus {days}` act as plain arithmetic on instants.
* Code that can throw is embedded in `Except String`; loops whose termination
  is not structural are given explicit fuel and return `none` when the fuel is
  exhausted (modelling a non-terminating run of the source loop).
* The timezone database is abstracted as a `TZEnv` parameter supplying luxon's
  civil-time-to-UTC conversion and UTC-to-civil display formatting.
-/

instance {ε α : Type} [DecidableEq ε] [DecidableEq α] : DecidableEq (Except ε α) := fun x y =>
  match x, y with
  | .ok a, .ok b =>
    if h : a = b then .isTrue (by rw [h]) else .isFalse (by intro hc; cases hc; exact h rfl)
  | .ok _, .error _ => .isFalse (by intro hc; cases hc)
  | .error _, .ok _ => .isFalse (by intro hc; cases hc)
  | .error e, .error f =>
    if h : e = f then .isTrue (by rw [h]) else .isFalse (by intro hc; cases hc; exact h rfl)

/-- The character for a single decimal digit `n ≤ 9`, as luxon prints it. -/
def digitChar (n : Nat) : Char := Char.ofNat (48 + n)

/-- Two-digit zero-padded decimal rendering of `n ≤ 99` (luxon's `HH` / `mm`). -/
def twoDigits (n : Nat) : List Char := [digitChar (n / 10), digitChar (n % 10)]

/-- luxon `DateTime.toFormat "HH:mm"` applied to minutes-of-day `m < 1440`. -/
def formatTime (m : Nat) : String := String.mk (twoDigits (m / 60) ++ ':' :: twoDigits (m % 60))

/-- luxon `DateTime.fromFormat s "HH:mm"`: the parse succeeds exactly on
`\d\d:\d\d` (the `HH` and `mm` tokens each demand two ASCII digits and the
regex is anchored), with hour in `0..23` and minute in `0..59`; the result is
the minutes-of-day value. -/
def parseTime (s : String) : Option Nat :=
  match s.data with
  | [c1, c2, c3, c4, c5] =>
    if c1.isDigit ∧ c2.isDigit ∧ c3 = ':' ∧ c4.isDigit ∧ c5.isDigit then
      if (c1.toNat - 48) * 10 + (c2.toNat - 48) ≤ 23 ∧
          (c4.toNat - 48) * 10 + (c5.toNat - 48) ≤ 59 then
        some (((c1.toNat - 48) * 10 + (c2.toNat - 48)) * 60 +
          ((c4.toNat - 48) * 10 + (c5.toNat - 48)))
      else none
    else none
  | _ => none

namespace TimezoneUtil

/-- `TimezoneUtil.isValidTimezone` from `timezone.util.ts`: the body evaluates
`DateTime.now().setZone(timezone)` inside `try/catch` and returns `true`;
luxon's `setZone` does not throw on an unknown zone name (it yields an invalid
`DateTime` instance instead, as `throwOnInvalid` is left at its default), so
the `catch` branch is unreachable and the function accepts every string. -/
def isValidTimezone (_timezone : String) : Bool := true

/-- `TimezoneUtil.calculateDuration`: `end.diff(start, 'minutes')` after both
parse under `HH:mm`; throws `Invalid time format` when either parse fails.
The difference may be negative. -/
def calculateDuration (startTime endTime : String) : Except String Int :=
  match parseTime startTime, parseTime endTime with
  | some s, some e => .ok ((e : Int) - (s : Int))
  | _, _ => .error "Invalid time format"

/-- `TimezoneUtil.addMinutes`: parse under `HH:mm` (throwing on failure), add
the minutes with luxon, and re-format as `HH:mm`.  Printing only the
time-of-day wraps the result modulo 24 hours. -/
def addMinutes (time : String) (minutes : Int) : Except String String :=
  match parseTime time with
  | some m => .ok (formatTime (((m : Int) + minutes) % 1440).toNat)
  | none => .error "Invalid time format"

end TimezoneUtil

/-- The timezone-conversion collaborator (luxon's zone database), supplied as
an environment: `toUTC zone day civil` is the UTC instant (minutes since
epoch) of civil time `civil` on epoch-day `day` in `zone`
(`TimezoneUtil.toUTC`), and `displayTime instant zone` formats an instant as
`HH:mm` in `zone` (`TimezoneUtil.formatTimeForDisplay`). -/
structure TZEnv where
  toUTC : String → Int → String → Int
  displayTime : Int → String → String

/-- A concrete environment whose zone database maps every zone name to UTC;
used to instantiate the claims' concrete scenarios (all of which use "UTC"). -/
def utcEnv : TZEnv where
  toUTC := fun _zone day civil => day * 1440 + ((parseTime civil).getD 0 : Nat)
  displayTime := fun instant _zone => formatTime (instant.emod 1440).toNat

/-- `SlotGenerationConfig` from `slot-generator.util.ts`; `date` is the JS
`Date` instant in minutes since the epoch. -/
structure SlotGenerationConfig where
  startTime : String
  endTime : String
  slotDuration : Int
  breakDuration : Int
  timezone : String
  date : Int
deriving Repr, DecidableEq

/-- `GeneratedSlot` from `slot-generator.util.ts`: civil `HH:mm` boundary
strings plus the corresponding UTC instants (minutes since epoch). -/
structure GeneratedSlot where
  startTime : String
  endTime : String
  slotStartTime : Int
  slotEndTime : Int
deriving Repr, DecidableEq

namespace SlotGeneratorUtil

/-- `SlotGeneratorUtil.isTimeBefore`: parse both times (throwing
`Invalid time format` if either fails) and compare. -/
def isTimeBefore (time1 time2 : String) : Except String Bool :=
  match parseTime time1, parseTime time2 with
  | some t1, some t2 => .ok (decide (t1 < t2))
  | _, _ => .error "Invalid time format"

/-- `SlotGeneratorUtil.isTimeEqual`: parse both times (throwing
`Invalid time format` if either fails) and test equality. -/
def isTimeEqual (time1 time2 : String) : Except String Bool :=
  match parseTime time1, parseTime time2 with
  | some t1, some t2 => .ok (decide (t1 = t2))
  | _, _ => .error "Invalid time format"

/-- The epoch-day of the UTC calendar date of an instant: the source builds
ISO strings from `date.toISOString().split('T')[0]`, i.e. the UTC date part. -/
def dayOf (instant : Int) : Int := instant.fdiv 1440

/-- The `while` loop of `SlotGeneratorUtil.generateSlotsForDay`, with explicit
fuel (`none` = the loop did not terminate within the fuel) and the emitted
slots accumulated in `acc` in push order.  Each iteration: stop when
`currentTime` is not before `endTime`; otherwise compute
`slotEndTime = currentTime + slotDuration`; emit the slot when
`slotEndTime ≤ endTime` (converting both boundaries to UTC); and advance
`currentTime = slotEndTime + breakDuration`.  The `||` of the emission test is
short-circuited as in JS. -/
def generateSlotsGo (env : TZEnv) (config : SlotGenerationConfig) :
    Nat → String → List GeneratedSlot → Option (Except String (List GeneratedSlot))
  | 0, _, _ => none
  | fuel + 1, currentTime, acc =>
    match isTimeBefore currentTime config.endTime with
    | .error e => some (.error e)
    | .ok false => some (.ok acc)
    | .ok true =>
      match TimezoneUtil.addMinutes currentTime config.slotDuration with
      | .error e => some (.error e)
      | .ok slotEndTime =>
        match isTimeBefore slotEndTime config.endTime with
        | .error e => some (.error e)
        | .ok before =>
          match (if before then .ok true else isTimeEqual slotEndTime config.endTime :
              Except String Bool) with
          | .error e => some (.error e)
          | .ok emit =>
            let acc' := if emit then
              acc ++ [{ startTime := currentTime, endTime := slotEndTime,
                        slotStartTime := env.toUTC config.timezone (dayOf config.date) currentTime,
                        slotEndTime := env.toUTC config.timezone (dayOf config.date) slotEndTime }]
              else acc
            match TimezoneUtil.addMinutes slotEndTime config.breakDuration with
            | .error e => some (.error e)
            | .ok nextTime => generateSlotsGo env config fuel nextTime acc'

/-- Fuel bound for the per-day loop: inside a single day the current time is a
minutes-of-day value below 1440 and every terminating run of the source loop
that makes monotone progress finishes in at most 1440 iterations. -/
def dayFuel : Nat := 2000

/-- `SlotGeneratorUtil.generateSlotsForDay`. -/
def generateSlotsForDay (env : TZEnv) (config : SlotGenerationConfig) :
    Option (Except String (List GeneratedSlot)) :=
  generateSlotsGo env config dayFuel config.startTime []

/-- `SlotGeneratorUtil.isValidTimeFormat`. -/
def isValidTimeFormat (time : String) : Bool := (parseTime time).isSome

/-- `SlotGeneratorUtil.validateSlotGeneration`: pushes the applicable error
messages in source order.  NOTE the `isTimeBefore` call at the time-range
check and the `calculateDuration` call at the final check both throw
`Invalid time format` when either boundary string is malformed, so the
function only returns an error list when both boundaries parse. -/
def validateSlotGeneration (config : SlotGenerationConfig) : Except String (List String) := do
  let e1 := if ¬ isValidTimeFormat config.startTime
    then ["Invalid start time format. Use HH:mm format."] else []
  let e2 := e1 ++ (if ¬ isValidTimeFormat config.endTime
    then ["Invalid end time format. Use HH:mm format."] else [])
  let endBeforeStart ← isTimeBefore config.endTime config.startTime
  let e3 := e2 ++ (if endBeforeStart then ["End time must be after start time."] else [])
  let e4 := e3 ++ (if config.slotDuration ≤ 0 then ["Slot duration must be greater than 0."] else [])
  let e5 := e4 ++ (if config.breakDuration < 0 then ["Break duration cannot be negative."] else [])
  let e6 := e5 ++ (if ¬ TimezoneUtil.isValidTimezone config.timezone then ["Invalid timezone."] else [])
  let totalDuration ← TimezoneUtil.calculateDuration config.startTime config.endTime
  let e7 := e6 ++ (if config.slotDuration > totalDuration
    then ["Slot duration cannot be greater than total availability duration."] else [])
  return e7

/-- `SlotGeneratorUtil.calculateTotalSlots`:
`Math.floor(totalMinutes / (slotDuration + breakDuration))`; floor of the real
quotient is `Int.fdiv` whenever the divisor is nonzero (the claims only use
this under validation, where the divisor is at least 1). -/
def calculateTotalSlots (config : SlotGenerationConfig) : Except String Int := do
  let totalMinutes ← TimezoneUtil.calculateDuration config.startTime config.endTime
  return totalMinutes.fdiv (config.slotDuration + config.breakDuration)

/-- `SlotGeneratorUtil.slotsOverlap`: strict half-open interval overlap on the
UTC instants. -/
def slotsOverlap (slot1 slot2 : GeneratedSlot) : Bool :=
  decide (slot1.slotStartTime < slot2.slotEndTime) &&
    decide (slot2.slotStartTime < slot1.slotEndTime)

/-- `SlotGeneratorUtil.checkForOverlappingSlots`: the outer loop pushes each
new slot that overlaps some existing slot (the inner loop breaks at the first
hit, i.e. an existential test). -/
def checkForOverlappingSlots (newSlots existingSlots : List GeneratedSlot) :
    List GeneratedSlot :=
  newSlots.foldl
    (fun overlapping newSlot =>
      if existingSlots.any (fun existingSlot => slotsOverlap newSlot existingSlot)
      then overlapping ++ [newSlot] else overlapping)
    []

end SlotGeneratorUtil

/-- Gregorian leap-year test (luxon's calendar). -/
def isLeapYear (y : Int) : Bool := y % 4 = 0 ∧ (y % 100 ≠ 0 ∨ y % 400 = 0)

/-- Number of days in a month of the proleptic Gregorian calendar. -/
def daysInMonth (y m : Int) : Int :=
  if m = 2 then (if isLeapYear y then 29 else 28)
  else if m = 4 ∨ m = 6 ∨ m = 9 ∨ m = 11 then 30
  else 31

/-- Epoch-day number to Gregorian `(year, month, day)` (the standard
era-based civil-calendar conversion, as implemented by date libraries). -/
def civilFromDays (z : Int) : Int × Int × Int :=
  let z := z + 719468
  let era := z.fdiv 146097
  let doe := z - era * 146097
  let yoe := (doe - doe.fdiv 1460 + doe.fdiv 36524 - doe.fdiv 146096).fdiv 365
  let y := yoe + era * 400
  let doy := doe - (365 * yoe + yoe.fdiv 4 - yoe.fdiv 100)
  let mp := (5 * doy + 2).fdiv 153
  let d := doy - (153 * mp + 2).fdiv 5 + 1
  let m := mp + (if mp < 10 then 3 else -9)
  (y + (if m ≤ 2 then 1 else 0), m, d)

/-- Gregorian `(year, month, day)` to epoch-day number (inverse of
`civilFromDays`). -/
def daysFromCivil (y m d : Int) : Int :=
  let y := y - (if m ≤ 2 then 1 else 0)
  let era := y.fdiv 400
  let yoe := y - era * 400
  let mp := m + (if m > 2 then -3 else 9)
  let doy := (153 * mp + 2).fdiv 5 + d - 1
  let doe := yoe * 365 + yoe.fdiv 4 - yoe.fdiv 100 + doy
  era * 146097 + doe - 719468

/-- luxon `plus {months := k}` on an instant: add `k` calendar months to the
date, clamping the day-of-month to the target month's length, and keep the
time-of-day.  (The runtime zone is a fixed offset, see the file header.) -/
def addMonthsToInstant (instant : Int) (k : Int) : Int :=
  let day := instant.fdiv 1440
  let timeOfDay := instant.emod 1440
  let ymd := civilFromDays day
  let y := ymd.1
  let m := ymd.2.1
  let d := ymd.2.2
  let months := m - 1 + k
  let y' := y + months.fdiv 12
  let m' := months.emod 12 + 1
  let d' := min d (daysInMonth y' m')
  daysFromCivil y' m' d' * 1440 + timeOfDay

/-- The recurrence patterns accepted by the service
(`'daily' | 'weekly' | 'monthly'`). -/
inductive RecurrencePattern where
  | daily
  | weekly
  | monthly
deriving Repr, DecidableEq

namespace SlotGeneratorUtil

/-- `SlotGeneratorUtil.getNextDate`: advance an instant by one day, one week,
or one calendar month (luxon `plus`). -/
def getNextDate (currentDate : Int) (pattern : RecurrencePattern) : Int :=
  match pattern with
  | .daily => currentDate + 1440
  | .weekly => currentDate + 7 * 1440
  | .monthly => addMonthsToInstant currentDate 1

/-- The `while currentDate <= endDate` loop of
`SlotGeneratorUtil.generateRecurringSlots`, with fuel. -/
def generateRecurringGo (env : TZEnv) (config : SlotGenerationConfig)
    (pattern : RecurrencePattern) (endDate : Int) :
    Nat → Int → List GeneratedSlot → Option (Except String (List GeneratedSlot))
  | 0, _, _ => none
  | fuel + 1, currentDate, acc =>
    if currentDate ≤ endDate then
      match generateSlotsForDay env { config with date := currentDate } with
      | none => none
      | some (.error e) => some (.error e)
      | some (.ok daySlots) =>
        generateRecurringGo env config pattern endDate fuel
          (getNextDate currentDate pattern) (acc ++ daySlots)
    else some (.ok acc)

/-- Fuel bound for the recurrence loop (enough for roughly a decade of daily
recurrence; every scenario of the claims is far below it). -/
def recurrenceFuel : Nat := 4000

/-- `SlotGeneratorUtil.generateRecurringSlots`. -/
def generateRecurringSlots (env : TZEnv) (config : SlotGenerationConfig)
    (pattern : RecurrencePattern) (endDate : Int) :
    Option (Except String (List GeneratedSlot)) :=
  generateRecurringGo env config pattern endDate recurrenceFuel config.date []

end SlotGeneratorUtil

/-! ## The `AvailabilityService` layer

Shallow embedding of the Prisma-backed store and the service methods of
`AvailabilityService`.  Rows live in in-memory lists; Prisma's `create`,
`createMany`, `update`, `delete`, `deleteMany` and `findFirst`/`findMany`
calls become list operations; a thrown Nest exception becomes a
`ServiceError`; the `$transaction` block becomes a single functional state
update (its two writes either both happen or, on an earlier throw, not at
all). -/

/-- `SlotStatus` enum of the Prisma schema. -/
inductive SlotStatus where
  | available
  | booked
  | cancelled
  | blocked
deriving Repr, DecidableEq

/-- `AvailabilityStatus` enum of the Prisma schema. -/
inductive AvailabilityStatus where
  | available
  | booked
  | cancelled
  | blocked
  | maintenance
deriving Repr, DecidableEq

/-- The pricing JSON carried by an availability record (`base_fee` is the only
field the service reads). -/
structure PricingInfo where
  base_fee : Int
deriving Repr, DecidableEq

/-- The location JSON carried by an availability record (`locationType` embeds
the JSON field `type`, the only field the service reads). -/
structure LocationInfo where
  locationType : String
deriving Repr, DecidableEq

/-- The provider columns selected by the service. -/
structure ProviderInfo where
  id : String
  firstName : String
  lastName : String
  specialization : String
  clinicCity : String
  clinicState : String
deriving Repr, DecidableEq

/-- A `ProviderAvailability` row. -/
structure AvailabilityRecord where
  id : Nat
  providerId : String
  date : Int
  startTime : String
  endTime : String
  timezone : String
  isRecurring : Bool
  recurrencePattern : Option RecurrencePattern
  recurrenceEndDate : Option Int
  slotDuration : Int
  breakDuration : Int
  appointmentType : String
  location : Option LocationInfo
  pricing : Option PricingInfo
  specialRequirements : List String
  notes : Option String
  maxAppointmentsPerSlot : Int
  status : AvailabilityStatus
deriving Repr, DecidableEq

/-- An `AppointmentSlot` row. -/
structure SlotRow where
  id : Nat
  availabilityId : Nat
  providerId : String
  slotStartTime : Int
  slotEndTime : Int
  status : SlotStatus
  patientId : Option String
  appointmentType : String
  bookingReference : Option String
deriving Repr, DecidableEq

/-- The persistence store: provider, availability and slot tables, plus
counters generating fresh row ids. -/
structure DBState where
  providers : List ProviderInfo
  availabilities : List AvailabilityRecord
  slots : List SlotRow
  nextAvailabilityId : Nat
  nextSlotId : Nat
deriving Repr, DecidableEq

/-- The error taxonomy of the service: the Nest exceptions it throws, plus
`internalError` for a plain JS `Error` escaping (e.g. `Invalid time format`
thrown by the validator on a malformed boundary string). -/
inductive ServiceError where
  | notFound (message : String)
  | badRequest (message : String)
  | conflict (message : String)
  | internalError (message : String)
deriving Repr, DecidableEq

/-- `CreateAvailabilityDto` (fields as used by the service; dates are JS
instants in minutes). -/
structure CreateAvailabilityDto where
  date : Int
  start_time : String
  end_time : String
  slot_duration : Int
  break_duration : Int
  timezone : String
  is_recurring : Bool
  recurrence_pattern : Option RecurrencePattern
  recurrence_end_date : Option Int
  appointment_type : String
  location : Option LocationInfo
  pricing : Option PricingInfo
  special_requirements : Option (List String)
  notes : Option String
  max_appointments_per_slot : Option Int
deriving Repr, DecidableEq

/-- `UpdateAvailabilityDto`: the two fields the update path reads.  The status
arrives as a raw string (so that out-of-range values such as `"booked"` can be
supplied). -/
structure UpdateAvailabilityDto where
  status : Option String
  appointment_type : Option String
deriving Repr, DecidableEq

/-- Result of `createAvailability`. -/
structure CreateResult where
  availability_id : Nat
  slots_created : Nat
  date_range_start : Int
  date_range_end : Int
deriving Repr, DecidableEq

/-- Result of `updateAvailabilitySlot`. -/
structure UpdateResult where
  id : Nat
  status : SlotStatus
  appointment_type : String
  slot_start_time : Int
  slot_end_time : Int
deriving Repr, DecidableEq

/-- Result of `deleteAvailabilitySlot`. -/
structure DeleteResult where
  message : String
  reason : String
deriving Repr, DecidableEq

namespace AvailabilityService

open SlotGeneratorUtil

/-- The `SlotGenerationConfig` the service builds from a create request. -/
def configOfDto (dto : CreateAvailabilityDto) : SlotGenerationConfig :=
  { startTime := dto.start_time
    endTime := dto.end_time
    slotDuration := dto.slot_duration
    breakDuration := dto.break_duration
    timezone := dto.timezone
    date := dto.date }

/-- The existing-slot query of `checkAvailabilityConflicts`: same-provider
slots (any status) whose start instant lies in the one-day window starting at
`config.date`. -/
def conflictWindowSlots (state : DBState) (providerId : String)
    (config : SlotGenerationConfig) : List SlotRow :=
  state.slots.filter (fun s =>
    s.providerId = providerId ∧
    config.date ≤ s.slotStartTime ∧ s.slotStartTime < config.date + 1440)

/-- The conversion of a persisted slot row to `GeneratedSlot` form performed
by `checkAvailabilityConflicts` (display strings via
`TimezoneUtil.formatTimeForDisplay`). -/
def rowToGeneratedSlot (env : TZEnv) (timezone : String) (s : SlotRow) : GeneratedSlot :=
  { startTime := env.displayTime s.slotStartTime timezone
    endTime := env.displayTime s.slotEndTime timezone
    slotStartTime := s.slotStartTime
    slotEndTime := s.slotEndTime }

/-- The conflict message thrown by `checkAvailabilityConflicts`. -/
def conflictMessage (n : Nat) : String :=
  "Found " ++ toString n ++ " overlapping slots. Please choose a different time or date."

/-- `AvailabilityService.checkAvailabilityConflicts`: load the provider's
existing slots for the single day starting at `config.date`; when any exist,
regenerate the first day's slots and throw `Conflict` if any overlap. -/
def checkAvailabilityConflicts (env : TZEnv) (state : DBState) (providerId : String)
    (config : SlotGenerationConfig) : Option (Except ServiceError Unit) :=
  let existingSlots := conflictWindowSlots state providerId config
  if 0 < existingSlots.length then
    match generateSlotsForDay env config with
    | none => none
    | some (.error e) => some (.error (.internalError e))
    | some (.ok newSlots) =>
      let existingGenerated := existingSlots.map (rowToGeneratedSlot env config.timezone)
      let overlapping := checkForOverlappingSlots newSlots existingGenerated
      if 0 < overlapping.length then
        some (.error (.conflict (conflictMessage overlapping.length)))
      else some (.ok ())
  else some (.ok ())

/-- `AvailabilityService.createAvailability`.  `now` is the instant
`DateTime.now()` would report; it is read only when a recurring request
carries no explicit recurrence end date. -/
def createAvailability (env : TZEnv) (state : DBState) (providerId : String)
    (dto : CreateAvailabilityDto) (now : Int) :
    Option (Except ServiceError (DBState × CreateResult)) :=
  if ¬ state.providers.any (fun p => p.id = providerId) then
    some (.error (.notFound "Provider not found"))
  else if ¬ TimezoneUtil.isValidTimezone dto.timezone then
    some (.error (.badRequest "Invalid timezone"))
  else
    let config := configOfDto dto
    match validateSlotGeneration config with
    | .error e => some (.error (.internalError e))
    | .ok validationErrors =>
      if 0 < validationErrors.length then
        some (.error (.badRequest (String.intercalate ", " validationErrors)))
      else
        match checkAvailabilityConflicts env state providerId config with
        | none => none
        | some (.error e) => some (.error e)
        | some (.ok _) =>
          let slotsRes :=
            match dto.is_recurring, dto.recurrence_pattern with
            | true, some pattern =>
              let endDate :=
                match dto.recurrence_end_date with
                | some d => d
                | none => addMonthsToInstant now 3
              generateRecurringSlots env config pattern endDate
            | _, _ => generateSlotsForDay env config
          match slotsRes with
          | none => none
          | some (.error e) => some (.error (.internalError e))
          | some (.ok slots) =>
            let availabilityId := state.nextAvailabilityId
            let record : AvailabilityRecord :=
              { id := availabilityId
                providerId := providerId
                date := dto.date
                startTime := dto.start_time
                endTime := dto.end_time
                timezone := dto.timezone
                isRecurring := dto.is_recurring
                recurrencePattern := dto.recurrence_pattern
                recurrenceEndDate := dto.recurrence_end_date
                slotDuration := dto.slot_duration
                breakDuration := dto.break_duration
                appointmentType := dto.appointment_type
                location := dto.location
                pricing := dto.pricing
                specialRequirements := dto.special_requirements.getD []
                notes := dto.notes
                maxAppointmentsPerSlot :=
                  match dto.max_appointments_per_slot with
                  | some n => if n = 0 then 1 else n
                  | none => 1
                status := .available }
            let newRows := ((List.range slots.length).zip slots).map (fun p =>
              ({ id := state.nextSlotId + p.1
                 availabilityId := availabilityId
                 providerId := providerId
                 slotStartTime := p.2.slotStartTime
                 slotEndTime := p.2.slotEndTime
                 status := .available
                 patientId := none
                 appointmentType := dto.appointment_type
                 bookingReference := none } : SlotRow))
            let state' : DBState :=
              { state with
                availabilities := state.availabilities ++ [record]
                slots := state.slots ++ newRows
                nextAvailabilityId := availabilityId + 1
                nextSlotId := state.nextSlotId + slots.length }
            some (.ok (state',
              { availability_id := availabilityId
                slots_created := slots.length
                date_range_start := dto.date
                date_range_end :=
                  match dto.is_recurring, dto.recurrence_end_date with
                  | true, some d => d
                  | _, _ => dto.date }))

/-- The status strings the update path accepts
(`['available', 'blocked', 'cancelled'].includes(...)`). -/
def allowedUpdateStatuses : List String := ["available", "blocked", "cancelled"]

/-- Decode one of the accepted status strings into the enum (never reached for
other strings). -/
def decodeSlotStatus (s : String) : SlotStatus :=
  if s = "blocked" then .blocked
  else if s = "cancelled" then .cancelled
  else .available

/-- `AvailabilityService.updateAvailabilitySlot`. -/
def updateAvailabilitySlot (state : DBState) (slotId : Nat) (providerId : String)
    (dto : UpdateAvailabilityDto) : Except ServiceError (DBState × UpdateResult) :=
  match state.slots.find? (fun s => s.id = slotId ∧ s.providerId = providerId) with
  | none => .error (.notFound "Slot not found")
  | some slot =>
    if slot.status = .booked then .error (.conflict "Cannot update booked slot")
    else
      let newAppointmentType :=
        match dto.appointment_type with
        | some t => if t = "" then slot.appointmentType else t
        | none => slot.appointmentType
      let newStatus :=
        match dto.status with
        | some st => if st ≠ "" ∧ st ∈ allowedUpdateStatuses then decodeSlotStatus st else slot.status
        | none => slot.status
      let state' : DBState :=
        { state with
          slots := state.slots.map (fun r =>
            if r.id = slotId then { r with appointmentType := newAppointmentType, status := newStatus }
            else r) }
      .ok (state',
        { id := slot.id
          status := newStatus
          appointment_type := newAppointmentType
          slot_start_time := slot.slotStartTime
          slot_end_time := slot.slotEndTime })

/-- `AvailabilityService.deleteAvailabilitySlot`.  The `slot.availability`
relation is looked up only when `deleteRecurring` is set (JS `&&`
short-circuit); a dangling relation there would crash the source, embedded as
`internalError`. -/
def deleteAvailabilitySlot (state : DBState) (slotId : Nat) (providerId : String)
    (deleteRecurring : Bool) (reason : Option String) :
    Except ServiceError (DBState × DeleteResult) :=
  match state.slots.find? (fun s => s.id = slotId ∧ s.providerId = providerId) with
  | none => .error (.notFound "Slot not found")
  | some slot =>
    if slot.status = .booked then .error (.conflict "Cannot delete booked slot")
    else
      let deleteResult : DeleteResult :=
        { message := "Slot deleted successfully"
          reason :=
            match reason with
            | some r => if r = "" then "Provider request" else r
            | none => "Provider request" }
      if deleteRecurring then
        match state.availabilities.find? (fun a => a.id = slot.availabilityId) with
        | none => .error (.internalError "availability relation missing")
        | some availability =>
          if availability.isRecurring then
            .ok ({ state with
                    slots := state.slots.filter (fun r =>
                      ¬ (r.availabilityId = slot.availabilityId ∧ r.status ≠ .booked))
                    availabilities := state.availabilities.map (fun a =>
                      if a.id = slot.availabilityId then { a with status := .cancelled } else a) },
                 deleteResult)
          else
            .ok ({ state with slots := state.slots.filter (fun r => r.id ≠ slotId) }, deleteResult)
      else
        .ok ({ state with slots := state.slots.filter (fun r => r.id ≠ slotId) }, deleteResult)

end AvailabilityService

/-- `SlotSearchDto` (fields as used by the service; dates are instants in
minutes since the epoch). -/
structure SlotSearchDto where
  date : Option Int
  start_date : Option Int
  end_date : Option Int
  specialization : Option String
  location : Option String
  provider_id : Option String
  appointment_type : Option String
  timezone : Option String
  min_duration : Option Int
  max_price : Option Int
  virtual_only : Option Bool
  in_person_only : Option Bool
  limit : Option Nat
  offset : Option Nat
deriving Repr, DecidableEq

/-- The provider/availability columns joined onto a slot by the search query's
`include`. -/
structure AvailabilityJoin where
  provider : ProviderInfo
  location : Option LocationInfo
  pricing : Option PricingInfo
  timezone : String
deriving Repr, DecidableEq

/-- One candidate row of the search: the slot columns the result mapper reads
plus the joined availability data. -/
structure SlotJoin where
  id : Nat
  slotStartTime : Int
  slotEndTime : Int
  appointmentType : String
  availability : AvailabilityJoin
deriving Repr, DecidableEq

/-- JS `String.prototype.includes`: substring containment. -/
def strIncludes (haystack needle : String) : Bool :=
  decide (List.IsInfix needle.data haystack.data)

namespace AvailabilityService

/-- The in-memory filter chain of `searchAvailableSlots` applied to the
candidate rows returned by the store query (specialization substring,
location substring against city or state, virtual-only, in-person-only, and
max-price — each guarded by JS truthiness of the corresponding criterion, so
an absent field, an empty string, a `false` flag or a zero number skips its
filter). -/
def searchInMemoryFilters (dto : SlotSearchDto) (slots : List SlotJoin) : List SlotJoin :=
  let f1 :=
    match dto.specialization with
    | some sp =>
      if sp = "" then slots
      else slots.filter (fun s =>
        strIncludes s.availability.provider.specialization.toLower sp.toLower)
    | none => slots
  let f2 :=
    match dto.location with
    | some loc =>
      if loc = "" then f1
      else f1.filter (fun s =>
        strIncludes s.availability.provider.clinicCity.toLower loc.toLower ||
        strIncludes s.availability.provider.clinicState.toLower loc.toLower)
    | none => f1
  let f3 :=
    match dto.virtual_only with
    | some true => f2.filter (fun s =>
        match s.availability.location with
        | some l => l.locationType = "virtual"
        | none => false)
    | _ => f2
  let f4 :=
    match dto.in_person_only with
    | some true => f3.filter (fun s =>
        match s.availability.location with
        | some l => ¬ l.locationType = "virtual"
        | none => false)
    | _ => f3
  match dto.max_price with
  | some p =>
    if p = 0 then f4
    else f4.filter (fun s =>
      match s.availability.pricing with
      | none => true
      | some pricing => pricing.base_fee ≤ p)
  | none => f4

end AvailabilityService

/-! ## Derived notions and concrete fixtures used by the claim theorems -/

/-- Closed form for the number of slots the per-day loop emits from current
minute `m` up to window end `e`, with slot length `d` and break `b` (valid,
wrap-free configurations). -/
def slotCountFrom (e m d b : Nat) : Nat :=
  if m + d ≤ e then (e - m - d) / (d + b) + 1 else 0

/-- Whether a store holds two distinct same-provider non-cancelled slot rows
with strictly overlapping UTC intervals — the invariant conflict detection is
meant to protect. -/
def hasOverlappingPair (state : DBState) : Bool :=
  state.slots.any (fun a =>
    state.slots.any (fun b =>
      a.id ≠ b.id ∧ a.providerId = b.providerId ∧
      a.status ≠ SlotStatus.cancelled ∧ b.status ≠ SlotStatus.cancelled ∧
      a.slotStartTime < b.slotEndTime ∧ b.slotStartTime < a.slotEndTime))

/-- Fixture for claim C2: a provider row. -/
def c2Provider : ProviderInfo :=
  { id := "p1", firstName := "Ann", lastName := "Lee", specialization := "cardiology",
    clinicCity := "Springfield", clinicState := "IL" }

/-- Fixture for claim C2: an empty store holding one provider. -/
def c2State0 : DBState :=
  { providers := [c2Provider], availabilities := [], slots := [],
    nextAvailabilityId := 1, nextSlotId := 1 }

/-- Fixture for claim C2: a single-day 09:00-10:00 request (one 60-minute
slot, no break) on epoch-day 19000. -/
def c2Dto1 : CreateAvailabilityDto :=
  { date := 27360000, start_time := "09:00", end_time := "10:00", slot_duration := 60,
    break_duration := 0, timezone := "UTC", is_recurring := false, recurrence_pattern := none,
    recurrence_end_date := none, appointment_type := "consultation", location := none,
    pricing := none, special_requirements := none, notes := none,
    max_appointments_per_slot := none }

/-- Fixture for claim C2: a daily recurring request with the same 09:00-10:00
window, starting one day before `c2Dto1` and ending on `c2Dto1`'s date, so its
second day collides with the slot `c2Dto1` created. -/
def c2Dto2 : CreateAvailabilityDto :=
  { date := 27358560, start_time := "09:00", end_time := "10:00", slot_duration := 60,
    break_duration := 0, timezone := "UTC", is_recurring := true,
    recurrence_pattern := some RecurrencePattern.daily, recurrence_end_date := some 27360000,
    appointment_type := "consultation", location := none, pricing := none,
    special_requirements := none, notes := none, max_appointments_per_slot := none }

/-- Fixture for claim C2: the availability row persisted by `c2Dto1`. -/
def c2Avail1 : AvailabilityRecord :=
  { id := 1, providerId := "p1", date := 27360000, startTime := "09:00", endTime := "10:00",
    timezone := "UTC", isRecurring := false, recurrencePattern := none, recurrenceEndDate := none,
    slotDuration := 60, breakDuration := 0, appointmentType := "consultation", location := none,
    pricing := none, specialRequirements := [], notes := none, maxAppointmentsPerSlot := 1,
    status := .available }

/-- Fixture for claim C2: the slot row persisted by `c2Dto1`
(09:00-10:00 UTC on epoch-day 19000). -/
def c2Slot1 : SlotRow :=
  { id := 1, availabilityId := 1, providerId := "p1", slotStartTime := 27360540,
    slotEndTime := 27360600, status := .available, patientId := none,
    appointmentType := "consultation", bookingReference := none }

/-- Fixture for claim C2: the store after `c2Dto1` was processed. -/
def c2State1 : DBState :=
  { providers := [c2Provider], availabilities := [c2Avail1], slots := [c2Slot1],
    nextAvailabilityId := 2, nextSlotId := 2 }

/-- Fixture for claim C5: a provider row. -/
def c5Provider : ProviderInfo :=
  { id := "p5", firstName := "Bo", lastName := "Kim", specialization := "dermatology",
    clinicCity := "Austin", clinicState := "TX" }

/-- Fixture for claim C5: an empty store holding one provider. -/
def c5State0 : DBState :=
  { providers := [c5Provider], availabilities := [], slots := [],
    nextAvailabilityId := 1, nextSlotId := 1 }

/-- Fixture for claim C5: a daily recurring request starting on epoch-day 200
(1970-07-20) with no recurrence end date. -/
def c5Dto : CreateAvailabilityDto :=
  { date := 288000, start_time := "09:00", end_time := "10:00", slot_duration := 60,
    break_duration := 0, timezone := "UTC", is_recurring := true,
    recurrence_pattern := some RecurrencePattern.daily, recurrence_end_date := none,
    appointment_type := "consultation", location := none, pricing := none,
    special_requirements := none, notes := none, max_appointments_per_slot := none }

/-- Fixture for claim C5 (witness): the same request starting on epoch-day 90
(1970-04-01), which a horizon of 3 months from `now = 0` just reaches. -/
def c5DtoW : CreateAvailabilityDto :=
  { date := 129600, start_time := "09:00", end_time := "10:00", slot_duration := 60,
    break_duration := 0, timezone := "UTC", is_recurring := true,
    recurrence_pattern := some RecurrencePattern.daily, recurrence_end_date := none,
    appointment_type := "consultation", location := none, pricing := none,
    special_requirements := none, notes := none, max_appointments_per_slot := none }

/-- Fixture for claim C6: a recurring availability row owning the two slots of
the scenario. -/
def c6Avail : AvailabilityRecord :=
  { id := 1, providerId := "p6", date := 27360000, startTime := "09:00", endTime := "10:00",
    timezone := "UTC", isRecurring := true, recurrencePattern := some .weekly,
    recurrenceEndDate := some 27400000, slotDuration := 30, breakDuration := 0,
    appointmentType := "consultation", location := none, pricing := none,
    specialRequirements := [], notes := none, maxAppointmentsPerSlot := 1,
    status := .available }

/-- Fixture for claim C6: a booked slot under `c6Avail`. -/
def c6SlotBooked : SlotRow :=
  { id := 10, availabilityId := 1, providerId := "p6", slotStartTime := 27360540,
    slotEndTime := 27360570, status := .booked, patientId := some "pat1",
    appointmentType := "consultation", bookingReference := some "BK-1" }

/-- Fixture for claim C6: a non-booked sibling slot under `c6Avail`. -/
def c6SlotFree : SlotRow :=
  { id := 11, availabilityId := 1, providerId := "p6", slotStartTime := 27360570,
    slotEndTime := 27360600, status := .available, patientId := none,
    appointmentType := "consultation", bookingReference := none }

/-- Fixture for claim C6: the provider row of the scenario. -/
def c6Provider : ProviderInfo :=
  { id := "p6", firstName := "Cy", lastName := "Doe", specialization := "pediatrics",
    clinicCity := "Boston", clinicState := "MA" }

/-- Fixture for claim C6: the store of the scenario-E witness. -/
def c6State : DBState :=
  { providers := [c6Provider],
    availabilities := [c6Avail], slots := [c6SlotBooked, c6SlotFree],
    nextAvailabilityId := 2, nextSlotId := 12 }

/-- Fixture for claim C10: an available slot row. -/
def c10Slot : SlotRow :=
  { id := 5, availabilityId := 1, providerId := "p10", slotStartTime := 27360540,
    slotEndTime := 27360570, status := .available, patientId := none,
    appointmentType := "consultation", bookingReference := none }

/-- Fixture for claim C10: the provider row of the scenario. -/
def c10Provider : ProviderInfo :=
  { id := "p10", firstName := "Di", lastName := "Poe", specialization := "oncology",
    clinicCity := "Denver", clinicState := "CO" }

/-- Fixture for claim C10: a store holding `c10Slot`. -/
def c10State : DBState :=
  { providers := [c10Provider],
    availabilities := [], slots := [c10Slot],
    nextAvailabilityId := 2, nextSlotId := 6 }

/-- Fixture for claim C9: the provider columns of the scenario. -/
def c9Provider : ProviderInfo :=
  { id := "p9", firstName := "Ed", lastName := "Fox", specialization := "cardiology",
    clinicCity := "Miami", clinicState := "FL" }

/-- Fixture for claim C9: a candidate slot whose availability carries pricing
data with a base fee of 100. -/
def c9Slot : SlotJoin :=
  { id := 1, slotStartTime := 27360540, slotEndTime := 27360570,
    appointmentType := "consultation",
    availability :=
      { provider := c9Provider,
        location := none, pricing := some { base_fee := 100 }, timezone := "UTC" } }

/-- Fixture for claim C9: a search request supplying a max-price filter of 0
and nothing else. -/
def c9Dto : SlotSearchDto :=
  { date := none, start_date := none, end_date := none, specialization := none,
    location := none, provider_id := none, appointment_type := none, timezone := none,
    min_duration := none, max_price := some 0, virtual_only := none, in_person_only := none,
    limit := none, offset := none }

/-- Fixture for claim C9 (witness): the same search request with a nonzero
max price of 50. -/
def c9DtoW : SlotSearchDto :=
  { date := none, start_date := none, end_date := none, specialization := none,
    location := none, provider_id := none, appointment_type := none, timezone := none,
    min_duration := none, max_price := some 50, virtual_only := none, in_person_only := none,
    limit := none, offset := none }

/-- Fixture for claim C9 (witness): a candidate slot with no pricing data. -/
def c9SlotW : SlotJoin :=
  { id := 2, slotStartTime := 27360540, slotEndTime := 27360570,
    appointmentType := "consultation",
    availability :=
      { provider := c9Provider,
        location := none, pricing := none, timezone := "UTC" } }

/-! ## Helper lemmas -/

theorem digitChar_isDigit {a : Nat} (ha : a ≤ 9) : (digitChar a).isDigit = true := by
  interval_cases a <;> decide

theorem digitChar_toNat {a : Nat} (ha : a ≤ 9) : (digitChar a).toNat = 48 + a := by
  interval_cases a <;> decide

theorem parseTime_formatTime {m : Nat} (hm : m < 1440) : parseTime (formatTime m) = some m := by
  have h3 : m / 60 / 10 ≤ 9 := by omega
  have h4 : m / 60 % 10 ≤ 9 := by omega
  have h5 : m % 60 / 10 ≤ 9 := by omega
  have h6 : m % 60 % 10 ≤ 9 := by omega
  simp only [formatTime, twoDigits, parseTime, List.cons_append, List.nil_append]
  simp only [digitChar_isDigit h3, digitChar_isDigit h4, digitChar_isDigit h5,
    digitChar_isDigit h6, digitChar_toNat h3, digitChar_toNat h4, digitChar_toNat h5,
    digitChar_toNat h6]
  norm_num
  omega

theorem parseTime_lt {s : String} {m : Nat} (h : parseTime s = some m) : m < 1440 := by
  unfold parseTime at h
  split at h
  · split at h
    · split at h
      · simp only [Option.some.injEq] at h
        omega
      · exact absurd h (by simp)
    · exact absurd h (by simp)
  · exact absurd h (by simp)

theorem fdiv_natCast (a b : Nat) : Int.fdiv (a : Int) (b : Int) = ((a / b : Nat) : Int) := by
  cases a with
  | zero => simp [Int.fdiv]
  | succ n => rfl

theorem validate_eq (config : SlotGenerationConfig) (s e : Nat)
    (hs : parseTime config.startTime = some s) (he : parseTime config.endTime = some e) :
    SlotGeneratorUtil.validateSlotGeneration config = .ok (
      (if e < s then ["End time must be after start time."] else []) ++
      (if config.slotDuration ≤ 0 then ["Slot duration must be greater than 0."] else []) ++
      (if config.breakDuration < 0 then ["Break duration cannot be negative."] else []) ++
      (if (e : Int) - s < config.slotDuration
        then ["Slot duration cannot be greater than total availability duration."] else [])) := by
  simp only [SlotGeneratorUtil.validateSlotGeneration, SlotGeneratorUtil.isValidTimeFormat,
    SlotGeneratorUtil.isTimeBefore, TimezoneUtil.calculateDuration, TimezoneUtil.isValidTimezone,
    hs, he, Option.isSome_some, Bind.bind, Except.bind]
  by_cases h1 : e < s <;> by_cases h2 : config.slotDuration ≤ 0 <;>
    by_cases h3 : config.breakDuration < 0 <;>
    by_cases h4 : (e : Int) - s < config.slotDuration <;>
    simp [h1, h2, h3, h4, gt_iff_lt, List.append_assoc, pure, Except.pure]

theorem validate_nil {config : SlotGenerationConfig} {s e : Nat}
    (hs : parseTime config.startTime = some s) (he : parseTime config.endTime = some e)
    (h : SlotGeneratorUtil.validateSlotGeneration config = .ok []) :
    ¬ e < s ∧ 0 < config.slotDuration ∧ 0 ≤ config.breakDuration ∧
      config.slotDuration ≤ (e : Int) - s := by
  rw [validate_eq config s e hs he] at h
  split_ifs at h <;> simp_all

theorem foldl_push_filter {α : Type} (p : α → Bool) :
    ∀ (l acc : List α),
      l.foldl (fun out x => if p x then out ++ [x] else out) acc = acc ++ l.filter p := by
  intro l
  induction l with
  | nil => intro acc; simp
  | cons x xs ih =>
    intro acc
    by_cases hx : p x <;> simp [hx, ih, List.filter_cons]

namespace SlotGeneratorUtil

theorem generateSlotsGo_spec (env : TZEnv) (config : SlotGenerationConfig) (e : Nat)
    (he : parseTime config.endTime = some e)
    (hD : 1 ≤ config.slotDuration) (hB : 0 ≤ config.breakDuration)
    (hwrap : (e : Int) + config.slotDuration + config.breakDuration ≤ 1440) :
    ∀ (fuel : Nat) (m : Nat) (t : String) (acc : List GeneratedSlot),
      parseTime t = some m → e + 1 ≤ fuel + m → 1 ≤ fuel →
      ∃ l, generateSlotsGo env config fuel t acc = some (.ok (acc ++ l)) ∧
        l.length = slotCountFrom e m config.slotDuration.toNat config.breakDuration.toNat ∧
        ∀ g ∈ l, ∃ a bEnd, parseTime g.startTime = some a ∧ parseTime g.endTime = some bEnd ∧
          (bEnd : Int) = (a : Int) + config.slotDuration ∧ bEnd ≤ e := by
  have he1440 : e < 1440 := parseTime_lt he
  intro fuel
  induction fuel with
  | zero => intro m t acc _ _ hpos; omega
  | succ fuel ih =>
    intro m t acc hparse hfuel _
    have hm1440 : m < 1440 := parseTime_lt hparse
    set dN := config.slotDuration.toNat with hdN
    set bN := config.breakDuration.toNat with hbN
    have hDn : 1 ≤ dN := by omega
    by_cases hm : m < e
    · -- the loop body runs
      have hm2lt : m + dN < 1440 := by omega
      have hm3lt : m + dN + bN < 1440 := by omega
      have hparse2 : parseTime (formatTime (m + dN)) = some (m + dN) := parseTime_formatTime hm2lt
      have hparse3 : parseTime (formatTime (m + dN + bN)) = some (m + dN + bN) :=
        parseTime_formatTime hm3lt
      have hbef1 : isTimeBefore t config.endTime = .ok true := by
        simp [isTimeBefore, hparse, he, hm]
      have hadd2 : TimezoneUtil.addMinutes t config.slotDuration = .ok (formatTime (m + dN)) := by
        simp only [TimezoneUtil.addMinutes, hparse]
        congr 2
        omega
      have hadd3 : TimezoneUtil.addMinutes (formatTime (m + dN)) config.breakDuration =
          .ok (formatTime (m + dN + bN)) := by
        simp only [TimezoneUtil.addMinutes, hparse2]
        congr 2
        omega
      have hbef2 : isTimeBefore (formatTime (m + dN)) config.endTime =
          .ok (decide (m + dN < e)) := by
        simp [isTimeBefore, hparse2, he]
      have heq2 : isTimeEqual (formatTime (m + dN)) config.endTime =
          .ok (decide (m + dN = e)) := by
        simp [isTimeEqual, hparse2, he]
      have hemitv : (if decide (m + dN < e) = true then (.ok true : Except String Bool)
          else isTimeEqual (formatTime (m + dN)) config.endTime) = .ok (decide (m + dN ≤ e)) := by
        by_cases h1 : m + dN < e
        · simp [h1, Nat.le_of_lt h1]
        · rw [decide_eq_false h1, if_neg (by simp), heq2]
          exact congrArg Except.ok (decide_eq_decide.mpr (by omega))
      set slotNew : GeneratedSlot :=
        ⟨t, formatTime (m + dN), env.toUTC config.timezone (dayOf config.date) t,
          env.toUTC config.timezone (dayOf config.date) (formatTime (m + dN))⟩ with hslot
      have hstep : generateSlotsGo env config (fuel + 1) t acc =
          generateSlotsGo env config fuel (formatTime (m + dN + bN))
            (if m + dN ≤ e then acc ++ [slotNew] else acc) := by
        simp only [generateSlotsGo, hbef1, hadd2, hbef2, hemitv, hadd3]
        by_cases h2 : m + dN ≤ e <;> simp [h2]
      obtain ⟨l', hgen', hlen', hall'⟩ := ih (m + dN + bN) (formatTime (m + dN + bN))
        (if m + dN ≤ e then acc ++ [slotNew] else acc) hparse3 (by omega) (by omega)
      refine ⟨(if m + dN ≤ e then [slotNew] else []) ++ l', ?_, ?_, ?_⟩
      · rw [hstep, hgen']
        by_cases h2 : m + dN ≤ e <;> simp [h2]
      · rw [List.length_append, hlen']
        unfold slotCountFrom
        by_cases h2 : m + dN ≤ e
        · rw [if_pos h2]
          by_cases h3 : m + dN + bN + dN ≤ e
          · rw [if_pos h3, if_pos (by omega)]
            simp only [List.length_singleton]
            have hsub : e - m - dN = (e - (m + dN + bN) - dN) + (dN + bN) := by omega
            rw [hsub, Nat.add_div_right _ (by omega)]
            omega
          · rw [if_neg h3, if_pos (by omega)]
            have hlt : e - m - dN < dN + bN := by omega
            rw [Nat.div_eq_of_lt hlt]
            simp
        · rw [if_neg h2, if_neg (by omega), if_neg (by omega)]
          simp
      · intro g hg
        rcases List.mem_append.mp hg with hg1 | hg2
        · by_cases h2 : m + dN ≤ e
          · rw [if_pos h2] at hg1
            rcases List.mem_singleton.mp hg1 with rfl
            exact ⟨m, m + dN, hparse, hparse2, by omega, h2⟩
          · rw [if_neg h2] at hg1
            exact absurd hg1 (List.not_mem_nil _)
        · exact hall' g hg2
    · -- the loop exits immediately
      refine ⟨[], ?_, ?_, by simp⟩
      · have hbef1 : isTimeBefore t config.endTime = .ok false := by
          simp [isTimeBefore, hparse, he, hm]
        simp [generateSlotsGo, hbef1]
      · simp only [List.length_nil, slotCountFrom]
        rw [if_neg (by omega)]

end SlotGeneratorUtil

/-! ## Claim theorems -/

/-- Claim C1, counterexample: the config 09:00-10:29 with 30-minute slots and
15-minute breaks passes `validateSlotGeneration`, yet `calculateTotalSlots`
reports 1 while `generateSlotsForDay` produces 2 slots (09:00-09:30 and
09:45-10:15 both fit), so the claimed equality fails. -/
theorem c1_count_counterexample :
    SlotGeneratorUtil.validateSlotGeneration
      ⟨"09:00", "10:29", 30, 15, "UTC", 0⟩ = .ok [] ∧
    SlotGeneratorUtil.calculateTotalSlots
      ⟨"09:00", "10:29", 30, 15, "UTC", 0⟩ = .ok 1 ∧
    (SlotGeneratorUtil.generateSlotsForDay utcEnv
      ⟨"09:00", "10:29", 30, 15, "UTC", 0⟩).map (Except.map List.length) = some (.ok 2) ∧
    (2 : Nat) ≠ 1 :=
  ⟨by decide, by decide, by decide, by decide⟩

/-- Claim C1, amended: `calculateTotalSlots` is
`floor(totalWindowMinutes / (slotDuration + breakDuration))`, but for a
validated wrap-free config the per-day generator emits
`floor((window - slotDuration) / (slotDuration + breakDuration)) + 1` slots;
the estimate is only a lower bound on the generated count, not an equality. -/
theorem c1_count_amended (env : TZEnv) (config : SlotGenerationConfig) (s e : Nat)
    (hs : parseTime config.startTime = some s) (he : parseTime config.endTime = some e)
    (hval : SlotGeneratorUtil.validateSlotGeneration config = .ok [])
    (hwrap : (e : Int) + config.slotDuration + config.breakDuration ≤ 1440) :
    ∃ l, SlotGeneratorUtil.generateSlotsForDay env config = some (.ok l) ∧
      l.length = (e - s - config.slotDuration.toNat) /
        (config.slotDuration.toNat + config.breakDuration.toNat) + 1 ∧
      SlotGeneratorUtil.calculateTotalSlots config =
        .ok (((e - s) / (config.slotDuration.toNat + config.breakDuration.toNat) : Nat) : Int) ∧
      (e - s) / (config.slotDuration.toNat + config.breakDuration.toNat) ≤ l.length := by
  obtain ⟨hes, hD, hB, hDle⟩ := validate_nil hs he hval
  have he1440 : e < 1440 := parseTime_lt he
  obtain ⟨l, hgen, hlen, _⟩ := SlotGeneratorUtil.generateSlotsGo_spec env config e he
    (by omega) (by omega) hwrap SlotGeneratorUtil.dayFuel s config.startTime [] hs
    (by simp only [SlotGeneratorUtil.dayFuel]; omega)
    (by simp [SlotGeneratorUtil.dayFuel])
  have hsd : config.slotDuration.toNat ≤ e - s := by omega
  refine ⟨l, ?_, ?_, ?_, ?_⟩
  · rw [SlotGeneratorUtil.generateSlotsForDay, hgen]
    simp
  · rw [hlen, slotCountFrom, if_pos (by omega)]
  · rw [SlotGeneratorUtil.calculateTotalSlots]
    simp only [TimezoneUtil.calculateDuration, hs, he, Bind.bind, Except.bind]
    have h1 : (e : Int) - (s : Int) = ((e - s : Nat) : Int) := by omega
    have h2 : config.slotDuration + config.breakDuration =
        ((config.slotDuration.toNat + config.breakDuration.toNat : Nat) : Int) := by omega
    rw [h1, h2, fdiv_natCast]
    rfl
  · rw [hlen, slotCountFrom, if_pos (by omega)]
    calc (e - s) / (config.slotDuration.toNat + config.breakDuration.toNat)
        ≤ ((e - s - config.slotDuration.toNat) +
            (config.slotDuration.toNat + config.breakDuration.toNat)) /
            (config.slotDuration.toNat + config.breakDuration.toNat) :=
          Nat.div_le_div_right (by omega)
      _ = (e - s - config.slotDuration.toNat) /
            (config.slotDuration.toNat + config.breakDuration.toNat) + 1 :=
          Nat.add_div_right _ (by omega)

/-- Witness for C1's amended theorem at the 09:00-17:00 / 30 / 15 config:
validation passes, 11 slots are generated, and the estimate 10 is a strict
lower bound. -/
theorem c1_count_amended_witness :
    SlotGeneratorUtil.validateSlotGeneration ⟨"09:00", "17:00", 30, 15, "UTC", 0⟩ = .ok [] ∧
    ∃ l, SlotGeneratorUtil.generateSlotsForDay utcEnv
        ⟨"09:00", "17:00", 30, 15, "UTC", 0⟩ = some (.ok l) ∧
      l.length = 11 ∧
      SlotGeneratorUtil.calculateTotalSlots ⟨"09:00", "17:00", 30, 15, "UTC", 0⟩ = .ok 10 ∧
      10 ≤ l.length := by
  refine ⟨by decide, ?_⟩
  obtain ⟨l, h1, h2, h3, h4⟩ := c1_count_amended utcEnv ⟨"09:00", "17:00", 30, 15, "UTC", 0⟩
    540 1020 (by decide) (by decide) (by decide) (by decide)
  refine ⟨l, h1, ?_, ?_, ?_⟩
  · rw [h2]; decide
  · rw [h3]; decide
  · have h10 : (10 : Nat) =
        (1020 - 540) / ((30 : Int).toNat + (15 : Int).toNat) := by decide
    rw [h10]
    exact h4

/-- Claim C3, counterexample: the 09:00-17:00 window with 30-minute slots and
15-minute breaks generates 11 slots, not the 16 the claim states (16 slots of
30 minutes with 15-minute gaps would need a 705-minute window). -/
theorem c3_scenarioA_counterexample :
    (SlotGeneratorUtil.generateSlotsForDay utcEnv
      ⟨"09:00", "17:00", 30, 15, "UTC", 0⟩).map (Except.map List.length) = some (.ok 11) ∧
    (11 : Nat) ≠ 16 :=
  ⟨by decide, by decide⟩

/-- Claim C3, amended: the 09:00-17:00 / 30 / 15 config generates exactly 11
slots, the first 09:00-09:30, the last 16:30-17:00, with a 15-minute gap
between consecutive slots. -/
theorem c3_scenarioA_amended :
    ∃ l, SlotGeneratorUtil.generateSlotsForDay utcEnv
        ⟨"09:00", "17:00", 30, 15, "UTC", 0⟩ = some (.ok l) ∧
      l.length = 11 ∧
      l.head? = some ⟨"09:00", "09:30", 540, 570⟩ ∧
      l.getLast? = some ⟨"16:30", "17:00", 990, 1020⟩ ∧
      (l.zip l.tail).all (fun p => p.2.slotStartTime = p.1.slotEndTime + 15 ∧
        p.2.startTime = (TimezoneUtil.addMinutes p.1.endTime 15).toOption.getD "") = true := by
  refine ⟨[⟨"09:00", "09:30", 540, 570⟩, ⟨"09:45", "10:15", 585, 615⟩,
    ⟨"10:30", "11:00", 630, 660⟩, ⟨"11:15", "11:45", 675, 705⟩,
    ⟨"12:00", "12:30", 720, 750⟩, ⟨"12:45", "13:15", 765, 795⟩,
    ⟨"13:30", "14:00", 810, 840⟩, ⟨"14:15", "14:45", 855, 885⟩,
    ⟨"15:00", "15:30", 900, 930⟩, ⟨"15:45", "16:15", 945, 975⟩,
    ⟨"16:30", "17:00", 990, 1020⟩], by decide, by decide, by decide, by decide, by decide⟩

/-- Claim C7: `checkForOverlappingSlots` returns exactly the new slots that
overlap some existing slot, overlap is the strict half-open comparison
`a.start < b.end ∧ b.start < a.end` on UTC instants, and touching boundaries
do not overlap. -/
theorem c7_overlap_exact :
    (∀ (newSlots existingSlots : List GeneratedSlot),
      SlotGeneratorUtil.checkForOverlappingSlots newSlots existingSlots =
        newSlots.filter (fun n =>
          existingSlots.any (fun e2 => SlotGeneratorUtil.slotsOverlap n e2))) ∧
    (∀ (newSlots existingSlots : List GeneratedSlot) (g : GeneratedSlot),
      g ∈ SlotGeneratorUtil.checkForOverlappingSlots newSlots existingSlots ↔
        g ∈ newSlots ∧ ∃ e2 ∈ existingSlots, SlotGeneratorUtil.slotsOverlap g e2 = true) ∧
    (∀ a b : GeneratedSlot, SlotGeneratorUtil.slotsOverlap a b = true ↔
      a.slotStartTime < b.slotEndTime ∧ b.slotStartTime < a.slotEndTime) ∧
    (∀ a b : GeneratedSlot, a.slotEndTime = b.slotStartTime →
      SlotGeneratorUtil.slotsOverlap a b = false ∧ SlotGeneratorUtil.slotsOverlap b a = false) := by
  have hfil : ∀ (newSlots existingSlots : List GeneratedSlot),
      SlotGeneratorUtil.checkForOverlappingSlots newSlots existingSlots =
        newSlots.filter (fun n =>
          existingSlots.any (fun e2 => SlotGeneratorUtil.slotsOverlap n e2)) := by
    intro newSlots existingSlots
    rw [SlotGeneratorUtil.checkForOverlappingSlots, foldl_push_filter]
    simp
  refine ⟨hfil, ?_, ?_, ?_⟩
  · intro newSlots existingSlots g
    rw [hfil]
    simp [List.mem_filter, List.any_eq_true]
  · intro a b
    simp [SlotGeneratorUtil.slotsOverlap]
  · intro a b h
    constructor <;> simp [SlotGeneratorUtil.slotsOverlap] <;> omega

/-- Witness for C7 at concrete slots: a strictly overlapping pair is reported
and a touching pair (one ends exactly when the other starts) is not. -/
theorem c7_overlap_exact_witness :
    SlotGeneratorUtil.checkForOverlappingSlots
      [⟨"09:00", "09:30", 540, 570⟩]
      [⟨"09:15", "09:45", 555, 585⟩] = [⟨"09:00", "09:30", 540, 570⟩] ∧
    SlotGeneratorUtil.slotsOverlap ⟨"09:00", "09:30", 540, 570⟩
      ⟨"09:30", "10:00", 570, 600⟩ = false := by
  constructor
  · rw [c7_overlap_exact.1]
    decide
  · exact (c7_overlap_exact.2.2.2 ⟨"09:00", "09:30", 540, 570⟩
      ⟨"09:30", "10:00", 570, 600⟩ rfl).1

/-- Claim C8, counterexample: the claim's universal quantification over valid
configs fails near midnight.  The config 23:00-23:50 with 44-minute slots and
no break passes `validateSlotGeneration`, yet the generator emits the slot
23:44-00:28 — a span whose real end 24:28 exceeds the window end 23:50 (its
end prints wrapped modulo 24h, so its end instant 28 even precedes its start
instant 1424) — instead of silently dropping it. -/
theorem c8_drop_counterexample :
    SlotGeneratorUtil.validateSlotGeneration ⟨"23:00", "23:50", 44, 0, "UTC", 0⟩ = .ok [] ∧
    (SlotGeneratorUtil.generateSlotsForDay utcEnv
      ⟨"23:00", "23:50", 44, 0, "UTC", 0⟩).map
      (Except.map (fun l => l.contains ⟨"23:44", "00:28", 1424, 28⟩)) = some (.ok true) ∧
    1430 < 1424 + 44 ∧
    ((28 : Int) < 1424) :=
  ⟨by decide, by decide, by decide, by decide⟩

/-- Claim C8, amended: on a validated config that stays clear of midnight
wraparound (endTime + slotDuration + breakDuration within 24 hours, which
covers every scenario of the spec) the per-day generator never errors and
every emitted slot spans exactly `slotDuration` civil minutes and ends no
later than the window's end time — a trailing span that would overrun the end
is dropped rather than truncated.  (For validated configs that do cross
midnight the overrunning span can instead be emitted wrapped, see the
counterexample.) -/
theorem c8_drop_trailing (env : TZEnv) (config : SlotGenerationConfig) (s e : Nat)
    (hs : parseTime config.startTime = some s) (he : parseTime config.endTime = some e)
    (hval : SlotGeneratorUtil.validateSlotGeneration config = .ok [])
    (hwrap : (e : Int) + config.slotDuration + config.breakDuration ≤ 1440) :
    ∃ l, SlotGeneratorUtil.generateSlotsForDay env config = some (.ok l) ∧
      ∀ g ∈ l, ∃ a bEnd, parseTime g.startTime = some a ∧ parseTime g.endTime = some bEnd ∧
        (bEnd : Int) = (a : Int) + config.slotDuration ∧ bEnd ≤ e := by
  obtain ⟨hes, hD, hB, hDle⟩ := validate_nil hs he hval
  have he1440 : e < 1440 := parseTime_lt he
  obtain ⟨l, hgen, _, hall⟩ := SlotGeneratorUtil.generateSlotsGo_spec env config e he
    (by omega) (by omega) hwrap SlotGeneratorUtil.dayFuel s config.startTime [] hs
    (by simp only [SlotGeneratorUtil.dayFuel]; omega)
    (by simp [SlotGeneratorUtil.dayFuel])
  refine ⟨l, ?_, hall⟩
  rw [SlotGeneratorUtil.generateSlotsForDay, hgen]
  simp

/-- Witness for C8 at the 09:00-09:40 / 30 / 0 config: exactly one slot
09:00-09:30 is produced (the 09:30-10:00 span is dropped), and the general
no-overrun property holds there. -/
theorem c8_drop_trailing_witness :
    SlotGeneratorUtil.generateSlotsForDay utcEnv ⟨"09:00", "09:40", 30, 0, "UTC", 0⟩ =
      some (.ok [⟨"09:00", "09:30", 540, 570⟩]) ∧
    ∃ l, SlotGeneratorUtil.generateSlotsForDay utcEnv
        ⟨"09:00", "09:40", 30, 0, "UTC", 0⟩ = some (.ok l) ∧
      ∀ g ∈ l, ∃ a bEnd, parseTime g.startTime = some a ∧ parseTime g.endTime = some bEnd ∧
        (bEnd : Int) = (a : Int) + (30 : Int) ∧ bEnd ≤ 580 := by
  refine ⟨by decide, ?_⟩
  exact c8_drop_trailing utcEnv ⟨"09:00", "09:40", 30, 0, "UTC", 0⟩ 540 580
    (by decide) (by decide) (by decide) (by decide)

/-- Claim C4, counterexample: on a config whose start time is the malformed
string "9:00" (the luxon `HH:mm` parse needs two hour digits), the validator
throws `Invalid time format` at its time-range check instead of returning the
format error in a list — it is not non-throwing on malformed boundaries. -/
theorem c4_validate_counterexample :
    SlotGeneratorUtil.validateSlotGeneration ⟨"9:00", "10:29", 30, 15, "UTC", 0⟩ =
      .error "Invalid time format" := by decide

/-- Claim C4, amended: only when both boundary strings are well-formed `HH:mm`
does `validateSlotGeneration` return (without throwing) the aggregated error
list; there, each of the end-after-start, positive-slot-duration,
non-negative-break and slot-fits-window errors is present exactly when its
condition fails, the two format errors never appear (a malformed boundary
throws before they could be returned), and the timezone error never appears
at all because the underlying zone test accepts every string. -/
theorem c4_validate_amended (config : SlotGenerationConfig) (s e : Nat)
    (hs : parseTime config.startTime = some s) (he : parseTime config.endTime = some e) :
    ∃ errs, SlotGeneratorUtil.validateSlotGeneration config = .ok errs ∧
      ("End time must be after start time." ∈ errs ↔ e < s) ∧
      ("Slot duration must be greater than 0." ∈ errs ↔ config.slotDuration ≤ 0) ∧
      ("Break duration cannot be negative." ∈ errs ↔ config.breakDuration < 0) ∧
      "Invalid timezone." ∉ errs ∧
      ("Slot duration cannot be greater than total availability duration." ∈ errs ↔
        (e : Int) - s < config.slotDuration) ∧
      "Invalid start time format. Use HH:mm format." ∉ errs ∧
      "Invalid end time format. Use HH:mm format." ∉ errs := by
  refine ⟨_, validate_eq config s e hs he, ?_, ?_, ?_, ?_, ?_, ?_, ?_⟩ <;>
    by_cases h1 : e < s <;> by_cases h2 : config.slotDuration ≤ 0 <;>
    by_cases h3 : config.breakDuration < 0 <;>
    by_cases h4 : (e : Int) - s < config.slotDuration <;>
    simp [h1, h2, h3, h4]

/-- Witness for C4's amended theorem: a config with well-formed times but four
violated conditions gets all four errors reported together. -/
theorem c4_validate_amended_witness :
    ∃ errs, SlotGeneratorUtil.validateSlotGeneration
        ⟨"10:00", "09:00", 0, -1, "UTC", 0⟩ = .ok errs ∧
      "End time must be after start time." ∈ errs ∧
      "Slot duration must be greater than 0." ∈ errs ∧
      "Break duration cannot be negative." ∈ errs ∧
      "Slot duration cannot be greater than total availability duration." ∈ errs ∧
      "Invalid timezone." ∉ errs := by
  obtain ⟨errs, h0, h1, h2, h3, h4, h5, _, _⟩ := c4_validate_amended
    ⟨"10:00", "09:00", 0, -1, "UTC", 0⟩ 600 540 (by decide) (by decide)
  exact ⟨errs, h0, h1.mpr (by decide), h2.mpr (by decide), h3.mpr (by decide),
    h5.mpr (by decide), h4⟩

/-- Claim C9, counterexample: a supplied max price of 0 is falsy in JS, so the
price filter is skipped entirely — a slot with pricing data and a base fee of
100 passes the search although 100 exceeds the supplied maximum 0. -/
theorem c9_price_counterexample :
    c9Dto.max_price = some 0 ∧
    AvailabilityService.searchInMemoryFilters c9Dto [c9Slot] = [c9Slot] ∧
    c9Slot.availability.pricing = some { base_fee := 100 } ∧
    ¬ ((100 : Int) ≤ 0) :=
  ⟨rfl, by decide, rfl, by decide⟩

/-- Claim C9, amended: for a *nonzero* supplied max price, a candidate slot
survives the search filters exactly when it survives all non-price filters
and either its availability carries no pricing data (passed through) or its
base fee is at most the maximum; a supplied max price of 0 disables the
filter instead. -/
theorem c9_price_amended (dto : SlotSearchDto) (slots : List SlotJoin) (p : Int)
    (hp : dto.max_price = some p) (hp0 : p ≠ 0) (s : SlotJoin) :
    s ∈ AvailabilityService.searchInMemoryFilters dto slots ↔
      (s ∈ AvailabilityService.searchInMemoryFilters { dto with max_price := none } slots ∧
        (s.availability.pricing = none ∨
          ∃ pr, s.availability.pricing = some pr ∧ pr.base_fee ≤ p)) := by
  simp only [AvailabilityService.searchInMemoryFilters, hp]
  rw [if_neg hp0]
  rw [List.mem_filter]
  cases hpr : s.availability.pricing <;> simp [hpr]

/-- Witness for C9's amended theorem: with max price 50, a slot without
pricing data passes the search. -/
theorem c9_price_amended_witness :
    c9SlotW ∈ AvailabilityService.searchInMemoryFilters c9DtoW [c9SlotW] :=
  (c9_price_amended c9DtoW [c9SlotW] 50 rfl (by decide) c9SlotW).mpr
    ⟨by decide, Or.inl rfl⟩

/-- Claim C10: updating a non-booked slot succeeds and rewrites only that
row's status and appointment type — id, interval, provider, availability,
patient and booking references of every row are untouched, as are the
provider and availability tables — and a requested status outside
{available, blocked, cancelled} is silently ignored: the slot keeps its
previous status and the call still succeeds. -/
theorem c10_update_frame (state : DBState) (slotId : Nat) (providerId : String)
    (dto : UpdateAvailabilityDto) (slot : SlotRow)
    (hfind : state.slots.find? (fun r => r.id = slotId ∧ r.providerId = providerId) = some slot)
    (hnb : ¬ slot.status = .booked) :
    ∃ state' result f,
      AvailabilityService.updateAvailabilitySlot state slotId providerId dto =
        .ok (state', result) ∧
      state'.providers = state.providers ∧
      state'.availabilities = state.availabilities ∧
      state'.slots = state.slots.map f ∧
      (∀ r, r.id ≠ slotId → f r = r) ∧
      (∀ r, (f r).id = r.id ∧ (f r).slotStartTime = r.slotStartTime ∧
        (f r).slotEndTime = r.slotEndTime ∧ (f r).providerId = r.providerId ∧
        (f r).availabilityId = r.availabilityId ∧ (f r).patientId = r.patientId ∧
        (f r).bookingReference = r.bookingReference) ∧
      (∀ st, dto.status = some st → st ∉ AvailabilityService.allowedUpdateStatuses →
        result.status = slot.status ∧ (f slot).status = slot.status) := by
  have hpred := List.find?_some hfind
  simp only [decide_eq_true_eq] at hpred
  set newType := (match dto.appointment_type with
    | some t => if t = "" then slot.appointmentType else t
    | none => slot.appointmentType) with htype
  set newStatus := (match dto.status with
    | some st => if st ≠ "" ∧ st ∈ AvailabilityService.allowedUpdateStatuses
      then AvailabilityService.decodeSlotStatus st else slot.status
    | none => slot.status) with hstatus
  refine ⟨{ state with slots := state.slots.map (fun r => if r.id = slotId then { r with appointmentType := newType, status := newStatus } else r) },
    { id := slot.id, status := newStatus, appointment_type := newType,
      slot_start_time := slot.slotStartTime, slot_end_time := slot.slotEndTime },
    fun r => if r.id = slotId then { r with appointmentType := newType, status := newStatus } else r,
    ?_, rfl, rfl, rfl, ?_, ?_, ?_⟩
  · simp only [AvailabilityService.updateAvailabilitySlot, hfind, if_neg hnb]
  · intro r hr
    simp [hr]
  · intro r
    by_cases hr : r.id = slotId <;> simp [hr]
  · intro st hst hstn
    have hns : newStatus = slot.status := by
      rw [hstatus, hst]
      show (if st ≠ "" ∧ st ∈ AvailabilityService.allowedUpdateStatuses
        then AvailabilityService.decodeSlotStatus st else slot.status) = slot.status
      rw [if_neg (by simp [hstn])]
    refine ⟨hns, ?_⟩
    simp [hpred.1, hns]

/-- Witness for C10: requesting the out-of-range status "booked" on an
available slot succeeds and leaves the status unchanged. -/
theorem c10_update_frame_witness :
    ∃ state' result, AvailabilityService.updateAvailabilitySlot c10State 5 "p10"
        { status := some "booked", appointment_type := none } = .ok (state', result) ∧
      result.status = c10Slot.status ∧ c10Slot.status = .available ∧
      state'.availabilities = c10State.availabilities := by
  obtain ⟨state', result, f, h1, _, hav, _, _, _, hlast⟩ := c10_update_frame c10State 5 "p10"
    { status := some "booked", appointment_type := none } c10Slot (by decide) (by decide)
  exact ⟨state', result, h1, (hlast "booked" rfl (by decide)).1, rfl, hav⟩

/-- Claim C6: update and delete fail NotFound when no slot with the given id
belongs to the given provider and Conflict when the slot is booked; a
recurring-series delete removes exactly the non-booked siblings under the
owning availability record (booked siblings survive unchanged) and marks that
record cancelled; otherwise (no series flag, or a non-recurring owner)
exactly the single targeted row is removed and the availability table is
untouched. -/
theorem c6_delete_update_rules :
    (∀ (state : DBState) (slotId : Nat) (providerId : String) (dto : UpdateAvailabilityDto)
        (deleteRecurring : Bool) (reason : Option String),
      state.slots.find? (fun r => r.id = slotId ∧ r.providerId = providerId) = none →
        AvailabilityService.updateAvailabilitySlot state slotId providerId dto =
          .error (.notFound "Slot not found") ∧
        AvailabilityService.deleteAvailabilitySlot state slotId providerId deleteRecurring
          reason = .error (.notFound "Slot not found")) ∧
    (∀ (state : DBState) (slotId : Nat) (providerId : String) (dto : UpdateAvailabilityDto)
        (deleteRecurring : Bool) (reason : Option String) (slot : SlotRow),
      state.slots.find? (fun r => r.id = slotId ∧ r.providerId = providerId) = some slot →
      slot.status = .booked →
        AvailabilityService.updateAvailabilitySlot state slotId providerId dto =
          .error (.conflict "Cannot update booked slot") ∧
        AvailabilityService.deleteAvailabilitySlot state slotId providerId deleteRecurring
          reason = .error (.conflict "Cannot delete booked slot")) ∧
    (∀ (state : DBState) (slotId : Nat) (providerId : String) (reason : Option String)
        (slot : SlotRow) (availability : AvailabilityRecord),
      state.slots.find? (fun r => r.id = slotId ∧ r.providerId = providerId) = some slot →
      ¬ slot.status = .booked →
      state.availabilities.find? (fun a => a.id = slot.availabilityId) = some availability →
      availability.isRecurring = true →
      ∃ state' res, AvailabilityService.deleteAvailabilitySlot state slotId providerId true
          reason = .ok (state', res) ∧
        state'.providers = state.providers ∧
        (∀ r ∈ state.slots, (r ∈ state'.slots ↔
          r.status = .booked ∨ r.availabilityId ≠ slot.availabilityId)) ∧
        (∀ a ∈ state.availabilities, a.id = slot.availabilityId →
          { a with status := AvailabilityStatus.cancelled } ∈ state'.availabilities) ∧
        (∀ a ∈ state.availabilities, a.id ≠ slot.availabilityId →
          a ∈ state'.availabilities)) ∧
    (∀ (state : DBState) (slotId : Nat) (providerId : String) (reason : Option String)
        (slot : SlotRow),
      state.slots.find? (fun r => r.id = slotId ∧ r.providerId = providerId) = some slot →
      ¬ slot.status = .booked →
      ∃ state' res, AvailabilityService.deleteAvailabilitySlot state slotId providerId false
          reason = .ok (state', res) ∧
        state'.providers = state.providers ∧
        state'.availabilities = state.availabilities ∧
        ∀ r ∈ state.slots, (r ∈ state'.slots ↔ r.id ≠ slotId)) ∧
    (∀ (state : DBState) (slotId : Nat) (providerId : String) (reason : Option String)
        (slot : SlotRow) (availability : AvailabilityRecord),
      state.slots.find? (fun r => r.id = slotId ∧ r.providerId = providerId) = some slot →
      ¬ slot.status = .booked →
      state.availabilities.find? (fun a => a.id = slot.availabilityId) = some availability →
      availability.isRecurring = false →
      ∃ state' res, AvailabilityService.deleteAvailabilitySlot state slotId providerId true
          reason = .ok (state', res) ∧
        state'.providers = state.providers ∧
        state'.availabilities = state.availabilities ∧
        ∀ r ∈ state.slots, (r ∈ state'.slots ↔ r.id ≠ slotId)) := by
  refine ⟨?_, ?_, ?_, ?_, ?_⟩
  · intro state slotId providerId dto deleteRecurring reason hfind
    constructor
    · simp only [AvailabilityService.updateAvailabilitySlot, hfind]
    · simp only [AvailabilityService.deleteAvailabilitySlot, hfind]
  · intro state slotId providerId dto deleteRecurring reason slot hfind hbooked
    constructor
    · simp only [AvailabilityService.updateAvailabilitySlot, hfind, if_pos hbooked]
    · simp only [AvailabilityService.deleteAvailabilitySlot, hfind, if_pos hbooked]
  · intro state slotId providerId reason slot availability hfind hnb hav hrec
    refine ⟨{ state with
        slots := state.slots.filter (fun r => ¬ (r.availabilityId = slot.availabilityId ∧ r.status ≠ SlotStatus.booked)),
        availabilities := state.availabilities.map (fun a => if a.id = slot.availabilityId then { a with status := AvailabilityStatus.cancelled } else a) },
      { message := "Slot deleted successfully", reason := (match reason with | some r => if r = "" then "Provider request" else r | none => "Provider request") },
      ?_, rfl, ?_, ?_, ?_⟩
    · simp only [AvailabilityService.deleteAvailabilitySlot, hfind, if_neg hnb, hav, hrec,
        if_true]
    · intro r hr
      simp only [List.mem_filter, hr, true_and, decide_eq_true_eq]
      constructor
      · intro h
        by_cases hb : r.status = .booked
        · exact Or.inl hb
        · refine Or.inr ?_
          intro heq
          exact h ⟨heq, hb⟩
      · rintro (hb | hne) ⟨heq, hnb2⟩
        · exact hnb2 hb
        · exact hne heq
    · intro a ha heq
      refine List.mem_map.mpr ⟨a, ha, ?_⟩
      rw [if_pos heq]
    · intro a ha hne
      refine List.mem_map.mpr ⟨a, ha, ?_⟩
      rw [if_neg hne]
  · intro state slotId providerId reason slot hfind hnb
    refine ⟨{ state with slots := state.slots.filter (fun r => r.id ≠ slotId) },
      { message := "Slot deleted successfully", reason := (match reason with | some r => if r = "" then "Provider request" else r | none => "Provider request") },
      ?_, rfl, rfl, ?_⟩
    · simp only [AvailabilityService.deleteAvailabilitySlot, hfind, if_neg hnb,
        Bool.false_eq_true, if_false]
    · intro r hr
      simp [List.mem_filter, hr]
  · intro state slotId providerId reason slot availability hfind hnb hav hrec
    refine ⟨{ state with slots := state.slots.filter (fun r => r.id ≠ slotId) },
      { message := "Slot deleted successfully", reason := (match reason with | some r => if r = "" then "Provider request" else r | none => "Provider request") },
      ?_, rfl, rfl, ?_⟩
    · simp only [AvailabilityService.deleteAvailabilitySlot, hfind, if_neg hnb, hav, hrec,
        Bool.false_eq_true, if_false, if_true]
    · intro r hr
      simp [List.mem_filter, hr]

/-- Witness for C6 (scenario E): deleting the booked slot fails Conflict;
deleting its non-booked recurring sibling succeeds, the booked slot row
survives unchanged, the sibling is gone, and the parent record is marked
cancelled. -/
theorem c6_delete_update_rules_witness :
    AvailabilityService.deleteAvailabilitySlot c6State 10 "p6" false none =
      .error (.conflict "Cannot delete booked slot") ∧
    ∃ state' res, AvailabilityService.deleteAvailabilitySlot c6State 11 "p6" true none =
      .ok (state', res) ∧ c6SlotBooked ∈ state'.slots ∧ c6SlotFree ∉ state'.slots ∧
      { c6Avail with status := AvailabilityStatus.cancelled } ∈ state'.availabilities := by
  constructor
  · exact (c6_delete_update_rules.2.1 c6State 10 "p6" ⟨none, none⟩ false none c6SlotBooked
      (by decide) rfl).2
  · obtain ⟨state', res, h1, _, hslots, hcan, _⟩ := c6_delete_update_rules.2.2.1 c6State 11 "p6"
      none c6SlotFree c6Avail (by decide) (by decide) (by decide) rfl
    refine ⟨state', res, h1, ?_, ?_, ?_⟩
    · exact (hslots c6SlotBooked (by decide)).mpr (Or.inl rfl)
    · intro hmem
      rcases (hslots c6SlotFree (by decide)).mp hmem with h | h
      · exact absurd h (by decide)
      · exact absurd rfl h
    · exact hcan c6Avail (by decide) rfl

/-- Claim C2, counterexample: after a single-day creation persists a
09:00-10:00 slot, a *recurring* request by the same provider starting one day
earlier and ending on that same day succeeds (no Conflict is raised) even
though its second day regenerates the identical 09:00-10:00 interval —
because the conflict check loads existing slots only for the request's
*start* date — and the store ends up holding two overlapping non-cancelled
slots for one provider. -/
theorem c2_conflict_counterexample :
    AvailabilityService.createAvailability utcEnv c2State0 "p1" c2Dto1 0 =
      some (.ok (c2State1,
        { availability_id := 1, slots_created := 1,
          date_range_start := 27360000, date_range_end := 27360000 })) ∧
    (AvailabilityService.createAvailability utcEnv c2State1 "p1" c2Dto2 0).map
      (Except.map (fun p => hasOverlappingPair p.1)) = some (.ok true) :=
  ⟨by decide, by decide⟩

/-- Claim C2, amended: the conflict check covers only the request's start
date — existing same-provider slots whose start instant falls in the one-day
window at `config.date` are loaded, and when any exist and the first day's
regenerated slots overlap them, the whole request fails Conflict reporting
the overlap count (nothing is persisted); overlaps on later days of a
recurring request are not detected. -/
theorem c2_conflict_amended (env : TZEnv) (state : DBState) (providerId : String)
    (dto : CreateAvailabilityDto) (now : Int) (newSlots : List GeneratedSlot)
    (hprov : state.providers.any (fun p => p.id = providerId) = true)
    (hval : SlotGeneratorUtil.validateSlotGeneration
      (AvailabilityService.configOfDto dto) = .ok [])
    (hne : AvailabilityService.conflictWindowSlots state providerId
      (AvailabilityService.configOfDto dto) ≠ [])
    (hgen : SlotGeneratorUtil.generateSlotsForDay env
      (AvailabilityService.configOfDto dto) = some (.ok newSlots))
    (hov : 0 < (SlotGeneratorUtil.checkForOverlappingSlots newSlots
      ((AvailabilityService.conflictWindowSlots state providerId
          (AvailabilityService.configOfDto dto)).map
        (AvailabilityService.rowToGeneratedSlot env
          (AvailabilityService.configOfDto dto).timezone))).length) :
    AvailabilityService.createAvailability env state providerId dto now =
      some (.error (.conflict (AvailabilityService.conflictMessage
        (SlotGeneratorUtil.checkForOverlappingSlots newSlots
          ((AvailabilityService.conflictWindowSlots state providerId
              (AvailabilityService.configOfDto dto)).map
            (AvailabilityService.rowToGeneratedSlot env
              (AvailabilityService.configOfDto dto).timezone))).length))) := by
  have hcheck : AvailabilityService.checkAvailabilityConflicts env state providerId
      (AvailabilityService.configOfDto dto) =
      some (.error (.conflict (AvailabilityService.conflictMessage
        (SlotGeneratorUtil.checkForOverlappingSlots newSlots
          ((AvailabilityService.conflictWindowSlots state providerId
              (AvailabilityService.configOfDto dto)).map
            (AvailabilityService.rowToGeneratedSlot env
              (AvailabilityService.configOfDto dto).timezone))).length))) := by
    unfold AvailabilityService.checkAvailabilityConflicts
    rw [if_pos (List.length_pos.mpr hne), hgen]
    dsimp only
    rw [if_pos hov]
  simp only [AvailabilityService.createAvailability, hprov, TimezoneUtil.isValidTimezone,
    hval, hcheck]
  simp

/-- Witness for C2's amended theorem (scenario D with identical dates):
repeating `c2Dto1` against the state it created fails with Conflict reporting
exactly 1 overlapping slot. -/
theorem c2_conflict_amended_witness :
    AvailabilityService.createAvailability utcEnv c2State1 "p1" c2Dto1 0 =
      some (.error (.conflict
        "Found 1 overlapping slots. Please choose a different time or date.")) := by
  have h := c2_conflict_amended utcEnv c2State1 "p1" c2Dto1 0
    [⟨"09:00", "10:00", 27360540, 27360600⟩]
    (by decide) (by decide) (by decide) (by decide) (by decide)
  rw [h]
  decide

/-- Claim C5, counterexample: with no recurrence end date supplied, the
horizon is 3 months from `DateTime.now()` — not from the window's start
date.  For a request starting on epoch-day 200 issued at `now = 0`
(1970-01-01), the horizon 1970-04-01 lies before the start date, so the
request succeeds with 0 slots created, although a horizon of 3 months from
the start date would generate 93 daily occurrences. -/
theorem c5_horizon_counterexample :
    c5Dto.recurrence_end_date = none ∧
    (AvailabilityService.createAvailability utcEnv c5State0 "p5" c5Dto 0).map
      (Except.map (fun p => p.2.slots_created)) = some (.ok 0) ∧
    (SlotGeneratorUtil.generateRecurringSlots utcEnv
      (AvailabilityService.configOfDto c5Dto) RecurrencePattern.daily
      (addMonthsToInstant c5Dto.date 3)).map (Except.map List.length) = some (.ok 93) :=
  ⟨rfl, by decide, by decide⟩

/-- Claim C5, amended: for a recurring request with no explicit recurrence
end date, the slots generated and persisted are exactly those of
`generateRecurringSlots` run up to `now + 3 months` — three months from the
current instant of the request, not from the window's start date. -/
theorem c5_horizon_amended (env : TZEnv) (state : DBState) (providerId : String)
    (dto : CreateAvailabilityDto) (now : Int) (pattern : RecurrencePattern)
    (gslots : List GeneratedSlot)
    (hprov : state.providers.any (fun p => p.id = providerId) = true)
    (hval : SlotGeneratorUtil.validateSlotGeneration
      (AvailabilityService.configOfDto dto) = .ok [])
    (hnoc : AvailabilityService.conflictWindowSlots state providerId
      (AvailabilityService.configOfDto dto) = [])
    (hrec : dto.is_recurring = true) (hpat : dto.recurrence_pattern = some pattern)
    (hnoend : dto.recurrence_end_date = none)
    (hgen : SlotGeneratorUtil.generateRecurringSlots env
      (AvailabilityService.configOfDto dto) pattern (addMonthsToInstant now 3) =
      some (.ok gslots)) :
    (AvailabilityService.createAvailability env state providerId dto now).map
      (Except.map (fun p => p.2.slots_created)) = some (.ok gslots.length) ∧
    (AvailabilityService.createAvailability env state providerId dto now).map
      (Except.map (fun p =>
        (p.1.slots.drop state.slots.length).map (fun r => (r.slotStartTime, r.slotEndTime)))) =
      some (.ok (gslots.map (fun g => (g.slotStartTime, g.slotEndTime)))) := by
  have hcheck : AvailabilityService.checkAvailabilityConflicts env state providerId
      (AvailabilityService.configOfDto dto) = some (.ok ()) := by
    unfold AvailabilityService.checkAvailabilityConflicts
    rw [hnoc]
    simp
  constructor
  · simp only [AvailabilityService.createAvailability, hprov, TimezoneUtil.isValidTimezone,
      hval, hcheck, hrec, hpat, hnoend, hgen]
    simp [Except.map]
  · simp only [AvailabilityService.createAvailability, hprov, TimezoneUtil.isValidTimezone,
      hval, hcheck, hrec, hpat, hnoend, hgen]
    simp [Except.map]
    have hcg : List.map
        ((fun r : SlotRow => (r.slotStartTime, r.slotEndTime)) ∘ fun p : Nat × GeneratedSlot =>
          ({ id := state.nextSlotId + p.1, availabilityId := state.nextAvailabilityId,
             providerId := providerId, slotStartTime := p.2.slotStartTime,
             slotEndTime := p.2.slotEndTime, status := SlotStatus.available, patientId := none,
             appointmentType := dto.appointment_type, bookingReference := none } : SlotRow))
        ((List.range gslots.length).zip gslots) =
      List.map ((fun g : GeneratedSlot => (g.slotStartTime, g.slotEndTime)) ∘ Prod.snd)
        ((List.range gslots.length).zip gslots) :=
      List.map_congr_left (fun p _ => rfl)
    rw [hcg, ← List.map_map, List.map_snd_zip]
    rw [List.length_range]

/-- Witness for C5's amended theorem: a request starting on epoch-day 90
issued at `now = 0` reaches exactly the start day under the `now + 3 months`
horizon, creating 1 slot. -/
theorem c5_horizon_amended_witness :
    c5DtoW.recurrence_end_date = none ∧
    (AvailabilityService.createAvailability utcEnv c5State0 "p5" c5DtoW 0).map
      (Except.map (fun p => p.2.slots_created)) = some (.ok 1) := by
  refine ⟨rfl, ?_⟩
  have h := (c5_horizon_amended utcEnv c5State0 "p5" c5DtoW 0 RecurrencePattern.daily
    [⟨"09:00", "10:00", 130140, 130200⟩] (by decide) (by decide) (by decide)
    rfl rfl rfl (by decide)).1
  simpa using h
